import Mathlib

/-
Verification of the VibeFlow Studio backend (FastAPI + SQLModel songwriting
assistant).  This file is a shallow embedding of the parts of the code that
the specification talks about:

  * `backend/models.py`   — the `Song` row and its JSON columns,
  * `backend/ai.py`       — the `AIService` gateway (vibe-cloud generation
                            and curation, the five-stage "Lyrics Factory"
                            streaming pipeline, single-turn rewrite),
  * `backend/api/songs.py`— the HTTP handlers (create / update /
                            generate_vibe / streaming lyrics / refine).

The external generative-AI service is opaque: it is modelled by a `Remote`
record of response functions, one per kind of call the gateway makes.  Each
gateway operation additionally reports the list of remote calls it
performed, so that "no AI call is made" is directly statable.

Python string primitives used by the code (`split`, `strip`, `startswith`,
`join`, `int`, substring tests) are re-implemented structurally over
`List Char` (as `pySplit`, `pyStrip`, ...) so that all definitions reduce
in the kernel and concrete runs can be settled by `decide`.
-/

namespace VibeFlow

set_option maxRecDepth 40000

/-! ## Python string primitives -/

/-- Build a string from its character list. -/
def ofChars (l : List Char) : String := String.mk l

/-- Python `s.startswith(p)`. -/
def pyStartsWith (s p : String) : Bool := p.data.isPrefixOf s.data

/-- Whitespace characters stripped by Python `str.strip()` (the ones that
can actually occur in this code base). -/
def isPyWS (c : Char) : Bool := c == ' ' || c == '\t' || c == '\n' || c == '\r'

/-- Python `s.strip()`. -/
def pyStrip (s : String) : String :=
  ofChars (((s.data.dropWhile isPyWS).reverse.dropWhile isPyWS).reverse)

/-- Fuel-indexed worker for Python `str.split(sep)` with a non-empty
separator: scan left to right, cutting at each (non-overlapping)
occurrence of `sep`.  The fuel is the length of the list, so the zero-fuel
branch is unreachable at the call sites. -/
def pySplitAux (sep : List Char) : Nat → List Char → List (List Char)
  | _, [] => [[]]
  | 0, l => [l]
  | fuel + 1, c :: rest =>
    if sep.isPrefixOf (c :: rest) then
      [] :: pySplitAux sep fuel (List.drop (sep.length - 1) rest)
    else
      match pySplitAux sep fuel rest with
      | [] => [[c]]
      | h :: t => (c :: h) :: t

/-- Python `s.split(sep)` for a non-empty separator (Python raises on an
empty separator; the code never does that). -/
def pySplit (sep s : String) : List String :=
  if sep.data.isEmpty then [s]
  else (pySplitAux sep.data s.data.length s.data).map ofChars

/-- Python `sep.join(parts)`. -/
def pyJoin (sep : String) : List String → String
  | [] => ""
  | [x] => x
  | x :: y :: xs => x ++ sep ++ pyJoin sep (y :: xs)

/-- Decimal digits accumulator for `pyInt?`. -/
def digitsVal (acc : Nat) : List Char → Option Nat
  | [] => some acc
  | c :: r => if c.isDigit then digitsVal (acc * 10 + (c.toNat - 48)) r else none

/-- Python `int(s)` restricted to optionally-signed decimal literals
(whitespace-trimmed); `none` models the `ValueError` that the code catches. -/
def pyInt? (s : String) : Option Int :=
  match (pyStrip s).data with
  | [] => none
  | '-' :: d :: ds => (digitsVal 0 (d :: ds)).map (fun n => -(n : Int))
  | ds => (digitsVal 0 ds).map (fun n => (n : Int))

/-- Concatenation of a list of strings (`"".join` semantics). -/
def concatAll : List String → String
  | [] => ""
  | s :: rest => s ++ concatAll rest

/-- Substring containment, as a proposition: `pat` occurs inside `s`. -/
def Contains (s pat : String) : Prop := ∃ p q : String, s = p ++ pat ++ q

/-- Substring containment as a computation (Python `pat in s`): splitting
on `pat` produces more than one part exactly when `pat` occurs. -/
def pyContainsB (s pat : String) : Bool := (pySplit pat s).length > 1

/-- Python truthiness of an optional string: `None` and `""` are falsy;
`o or dflt`. -/
def pyOrStr (o : Option String) (dflt : String) : String :=
  match o with
  | none => dflt
  | some s => if s = "" then dflt else s

/-- Python truthiness of an optional list (`if song.vibe_cloud:`):
`None` and `[]` are falsy. -/
def vibeTruthy : Option (List String) → Bool
  | none => false
  | some l => !l.isEmpty

/-- Python falsiness of an optional list (`if not anchors:`). -/
def optFalsy (o : Option (List String)) : Bool := !vibeTruthy o

/-! ## Data model (`backend/models.py`)

JSON values stored in the `content` column are abstracted as strings: every
code path in the repository only ever writes string values (`lyrics`,
`seed_prompt`).  Timestamps are opaque `Nat`s (no claim mentions them). -/

/-- The `content` JSON column: a string-keyed mapping, insertion-ordered. -/
abbrev ContentMap := List (String × String)

/-- Mapping lookup (`d.get(k)`). -/
def cmGet (m : ContentMap) (k : String) : Option String :=
  (m.find? (fun p => p.fst == k)).map (fun p => p.snd)

/-- Mapping update (`d[k] = v`): replace in place, else append. -/
def cmSet (m : ContentMap) (k v : String) : ContentMap :=
  if m.any (fun p => p.fst == k) then
    m.map (fun p => if p.fst == k then (k, v) else p)
  else m ++ [(k, v)]

/-- One row of the `song` table (`Song` in `backend/models.py`). -/
structure Song where
  id : Nat
  title : String
  vibe_cloud : Option (List String) := none
  content : Option ContentMap := none
  thought_sig : Option String := none
  total_tokens : Int := 0
  created_at : Nat := 0
  updated_at : Nat := 0
deriving DecidableEq

/-- Request body of `POST /songs/` (`SongCreate`, i.e. all of `SongBase`). -/
structure SongCreate where
  title : String
  vibe_cloud : Option (List String) := none
  content : Option ContentMap := none
  thought_sig : Option String := none
  total_tokens : Int := 0
deriving DecidableEq

/-- Request body of `PUT /songs/{id}` (`SongUpdate`): an outer `none`
means the field was not sent (`exclude_unset=True`); `some v` means the
column is set to `v` (which may itself be null for the nullable columns). -/
structure SongUpdate where
  title : Option String := none
  vibe_cloud : Option (Option (List String)) := none
  content : Option (Option ContentMap) := none
  thought_sig : Option (Option String) := none
  total_tokens : Option Int := none
deriving DecidableEq

/-- The database: the list of committed `song` rows. -/
abbrev Db := List Song

/-- `session.get(Song, song_id)`. -/
def dbGet (db : Db) (song_id : Nat) : Option Song :=
  db.find? (fun s => s.id == song_id)

/-- Committing a mutated row: replace the row(s) with the same id. -/
def dbSet (db : Db) (s : Song) : Db :=
  db.map (fun t => if t.id == s.id then s else t)

/-! ## The external generative service (`AIService` in `backend/ai.py`)

`Remote` packages the opaque hosted model: one response function per kind
of `generate_content` call the gateway makes, plus the `hasClient` flag
(`settings.GEMINI_API_KEY` present, so `self.client` is not `None`).

For the two JSON-constrained calls the response is
`Except Unit (Option (List String))`: `.error ()` models a raised
exception (network failure or `json.loads` failure, both caught by the
same `except`), `.ok none` models a falsy `response.text`, and
`.ok (some l)` a successfully parsed JSON array.  The five pipeline
stages and the rewrite call are plain text completions; the claims under
verification only concern runs in which those calls succeed, so they are
total functions of the prompt. -/

/-- A record of which remote calls the gateway performed, in order. -/
inductive Call where
  | brainstorm
  | curate
  | architect
  | drafter
  | editor
  | rhythmist
  | sonic
  | rewrite
deriving DecidableEq

/-- The opaque hosted generation service plus the configuration flag. -/
structure Remote where
  hasClient : Bool
  brainstormResp : String → Except Unit (Option (List String))
  curateResp : String → Except Unit (Option (List String))
  architectResp : String → String
  drafterResp : String → String
  editorResp : String → String
  rhythmistResp : String → String
  sonicResp : String → String
  rewriteResp : String → String → String → String

/-- Modelled from the spec: the fixed banned cliché word list lives in
`backend/constants.py`, which is not part of the provided sources; the
spec describes it as "a fixed banned-word list" of clichés such as
"broken heart" and "tears".  Its value is only ever interpolated into the
editor prompt, so no claim depends on the exact entries. -/
def BANNED_AI_WORDS : List String := ["broken heart", "tears"]

/-- `AIService.generate_vibe_candidates`: brainstorm up to 10 candidate
phrases; any call/parse failure or falsy response text degrades to `[]`.
Also returns the remote calls performed. -/
def generate_vibe_candidates (r : Remote) (prompt : String) :
    List String × List Call :=
  match r.brainstormResp prompt with
  | .error _ => ([], [Call.brainstorm])
  | .ok none => ([], [Call.brainstorm])
  | .ok (some l) => (l.take 10, [Call.brainstorm])

/-- The user prompt built by `AIService.curate_vibe_anchors`. -/
def curatePrompt (original_prompt : String) (candidates : List String) : String :=
  "Original Prompt: " ++ original_prompt ++ "\nCandidates:\n" ++
    pyJoin "\n" (candidates.map (fun c => "- " ++ c))

/-- `AIService.curate_vibe_anchors`: select the top 5 anchors; an empty
candidate list short-circuits to `[]` before any remote call; a call
failure or falsy response text degrades to the first 5 candidates. -/
def curate_vibe_anchors (r : Remote) (original_prompt : String)
    (candidates : List String) : List String × List Call :=
  if candidates.isEmpty then ([], [])
  else
    match r.curateResp (curatePrompt original_prompt candidates) with
    | .error _ => (candidates.take 5, [Call.curate])
    | .ok none => (candidates.take 5, [Call.curate])
    | .ok (some l) => (l.take 5, [Call.curate])

/-- `AIService.get_vibe_cloud`: generate-then-curate; raises
(`.error ()`) when no API key is configured. -/
def get_vibe_cloud (r : Remote) (prompt : String) :
    Except Unit (List String) × List Call :=
  if r.hasClient then
    let gc := generate_vibe_candidates r prompt
    let cu := curate_vibe_anchors r prompt gc.fst
    (.ok cu.fst, gc.snd ++ cu.snd)
  else (.error (), [])

/-- The anchor list `get_vibe_cloud` produces when a client is configured
(in that case it cannot raise). -/
def get_vibe_cloud_val (r : Remote) (prompt : String) : List String :=
  (curate_vibe_anchors r prompt (generate_vibe_candidates r prompt).fst).fst

/-- `AIService.architect_outline` (agent A): outline the song structure. -/
def architect_outline (r : Remote) (title : String) (anchors : List String) : String :=
  r.architectResp ("Title: " ++ title ++ "\nAnchors: " ++ pyJoin ", " anchors ++
    "\n\nOutline a song structure (Verse 1, Chorus, Verse 2, Bridge, Outro) with a brief narrative goal for each.")

/-- `AIService.drafter_write` (agent B): write the raw draft. -/
def drafter_write (r : Remote) (title : String) (anchors : List String)
    (outline style rhyme_scheme : String) : String :=
  r.drafterResp ("Title: " ++ title ++ "\nAnchors: " ++ pyJoin ", " anchors ++
    "\nOutline: " ++ outline ++ "\nStyle: " ++ style ++
    "\nRhyme Scheme: " ++ rhyme_scheme ++ "\n\nWrite the full lyrics.")

/-- `AIService.editor_refine` (agent C): remove clichés. -/
def editor_refine (r : Remote) (lyrics : String) : String :=
  r.editorResp ("Lyrics to refine:\n" ++ lyrics ++
    "\n\nStrictly remove these clichés: " ++ pyJoin ", " BANNED_AI_WORDS ++
    ". Rewrite to be more conversational and raw.")

/-- `AIService.rhythmist_polish` (agent D): rhythmic polish. -/
def rhythmist_polish (r : Remote) (lyrics : String) : String :=
  r.rhythmistResp ("Lyrics to polish:\n" ++ lyrics ++
    "\n\nEnsure rhythmic consistency and natural flow.")

/-- `AIService.sonic_polish` (agent E): phonetic polish. -/
def sonic_polish (r : Remote) (lyrics : String) : String :=
  r.sonicResp ("Lyrics to improve:\n" ++ lyrics ++
    "\n\nOptimize for phonetic beauty (assonance, consonance) and naturalness.")

/-! ## The Lyrics Factory stream (`AIService.lyrics_factory_stream`) -/

/-- Progress marker yielded before the Architect stage. -/
def architectMsg : String := "🏗️ [Architect] Designing structure...\n"

/-- Progress marker yielded before the Drafter stage. -/
def drafterMsg : String := "✍️ [Drafter] Drafting lyrics...\n"

/-- Progress marker yielded before the Editor stage. -/
def editorMsg : String := "✂️ [Editor] Removing clichés...\n"

/-- Progress marker yielded before the Rhythmist stage. -/
def rhythmistMsg : String := "🎵 [Rhythmist] Polishing flow...\n"

/-- Progress marker yielded before the Sonic Sculptor stage. -/
def sonicMsg : String := "✨ [Sonic Sculptor] Enhancing phonetics...\n"

/-- The header yielded before the final lyrics are re-streamed. -/
def finalHeader : String := "\n--- FINAL LYRICS ---\n\n"

/-- The synthetic trailing usage-marker chunk the pipeline yields
(`yield f"\x5cn\x5cn__USAGE__:1500"`); note the two leading newlines. -/
def usageChunk : String := "\n\n__USAGE__:1500"

/-- The final lyrics re-streamed word by word: `final_lyrics.split(" ")`
with `word + " "` yielded for each word (the `time.sleep` pacing is a
presentation effect with no functional content). -/
def wordChunks (final_lyrics : String) : List String :=
  (pySplit " " final_lyrics).map (fun w => w ++ " ")

/-- `AIService.lyrics_factory_stream`: the coordinated five-stage agentic
workflow, as the list of chunks it yields (in order) plus the remote
calls it performs.  With no client it yields a single error chunk.  When
the supplied `anchors` are falsy (absent or empty) it first runs the
Sensory Scout (`get_vibe_cloud`) on the seed. -/
def lyrics_factory_stream (r : Remote) (title seed style rhyme_scheme : String)
    (anchors : Option (List String)) : List String × List Call :=
  if r.hasClient then
    let scouted :=
      if optFalsy anchors then
        let a := get_vibe_cloud_val r seed
        ((["🔍 [Sensory Scout] Expanding vibes...\n",
           "✨ Anchors: " ++ pyJoin ", " a ++ "\n\n"], a),
         (get_vibe_cloud r seed).snd)
      else
        ((["Using selected vibes...\n",
           "✨ Anchors: " ++ pyJoin ", " (anchors.getD []) ++ "\n\n"],
          anchors.getD []), [])
    let anch := scouted.fst.snd
    let outline := architect_outline r title anch
    let raw_draft := drafter_write r title anch outline style rhyme_scheme
    let refined := editor_refine r raw_draft
    let polished_rhythm := rhythmist_polish r refined
    let final_lyrics := sonic_polish r polished_rhythm
    (scouted.fst.fst ++
       [architectMsg, drafterMsg, editorMsg, rhythmistMsg, sonicMsg,
        finalHeader] ++
       wordChunks final_lyrics ++ [usageChunk],
     scouted.snd ++
       [Call.architect, Call.drafter, Call.editor, Call.rhythmist, Call.sonic])
  else (["Error: No API Key"], [])

/-- `AIService.rewrite_text`: single-turn rewrite of a selection; with no
client it returns the selection unchanged (and performs no call). -/
def rewrite_text (r : Remote) (original_text selection instructions : String) :
    String × List Call :=
  if r.hasClient then
    (r.rewriteResp original_text selection instructions, [Call.rewrite])
  else (selection, [])

/-! ## HTTP handlers (`backend/api/songs.py`) -/

/-- Outcome of a non-streaming handler: a value or an HTTP error status. -/
inductive ApiResult (α : Type) where
  | ok (a : α)
  | err (status : Nat)
deriving DecidableEq

/-- Fresh primary key on insert. -/
def nextId (db : Db) : Nat := db.foldr (fun s m => max s.id m) 0 + 1

/-- `POST /songs/` (`create_song`): validate the body into a row, insert,
commit.  `now` stands for `datetime.utcnow()`. -/
def create_song (db : Db) (c : SongCreate) (now : Nat) : Song × Db :=
  let s : Song :=
    { id := nextId db, title := c.title, vibe_cloud := c.vibe_cloud,
      content := c.content, thought_sig := c.thought_sig,
      total_tokens := c.total_tokens, created_at := now, updated_at := now }
  (s, db ++ [s])

/-- The `setattr` loop of `update_song`: fields present in the request
body overwrite the row, the rest are untouched. -/
def applyUpdate (s : Song) (u : SongUpdate) : Song :=
  { s with
    title := u.title.getD s.title,
    vibe_cloud := u.vibe_cloud.getD s.vibe_cloud,
    content := u.content.getD s.content,
    thought_sig := u.thought_sig.getD s.thought_sig,
    total_tokens := u.total_tokens.getD s.total_tokens }

/-- `PUT /songs/{id}` (`update_song`): 404 on a missing id, otherwise
apply the provided fields and commit. -/
def update_song (db : Db) (song_id : Nat) (u : SongUpdate) :
    ApiResult Song × Db :=
  match dbGet db song_id with
  | none => (.err 404, db)
  | some s =>
    let s2 := applyUpdate s u
    (.ok s2, dbSet db s2)

/-- `POST /songs/{id}/generate_vibe`: 404 on a missing id (before any AI
call); otherwise run the Sensory Scout, replace `vibe_cloud`, record the
prompt under `content["seed_prompt"]` and commit; a raised gateway error
becomes a 500 with the database unchanged. -/
def generate_vibe (r : Remote) (db : Db) (song_id : Nat) (prompt : String) :
    ApiResult Song × Db × List Call :=
  match dbGet db song_id with
  | none => (.err 404, db, [])
  | some song =>
    match get_vibe_cloud r prompt with
    | (.error _, cs) => (.err 500, db, cs)
    | (.ok anchors, cs) =>
      let c1 := cmSet (song.content.getD []) "seed_prompt" prompt
      let s2 := { song with vibe_cloud := some anchors, content := some c1 }
      (.ok s2, dbSet db s2, cs)

/-! ## The streaming handler (`stream_lyrics`) -/

/-- Observable events of a streaming response, in order: chunks delivered
to the client and commits against the database. -/
inductive Ev where
  | emit (chunk : String)
  | commit (s : Song)
deriving DecidableEq

/-- Outcome of `GET /songs/{id}/write_lyrics/stream`: 404 before the
stream starts, an aborted stream (the generator raised; nothing was
committed), or a completed stream with its event list and the database
after the final commit. -/
inductive StreamOut where
  | notFound
  | aborted (evs : List Ev)
  | completed (evs : List Ev) (db2 : Db)
deriving DecidableEq

/-- The per-chunk step of the handler loop: state is
`(full_output, final_tokens, emitted chunks)`.  A chunk starting with
`"__USAGE__:"` is consumed (parsed, not emitted, not accumulated); any
other chunk is appended to `full_output` and yielded to the client. -/
def stepChunk (st : String × Int × List String) (c : String) :
    String × Int × List String :=
  if pyStartsWith c "__USAGE__:" then
    (st.fst, ((pySplit ":" c).getD 1 "" |> pyInt?).getD st.snd.fst, st.snd.snd)
  else (st.fst ++ c, st.snd.fst, st.snd.snd ++ [c])

/-- Drain the factory chunks through the handler loop. -/
def runStreamBody (chunks : List String) : String × Int × List String :=
  chunks.foldl stepChunk ("", 0, [])

/-- Extract the lyrics that get persisted: everything after the last
`"--- FINAL LYRICS ---"` occurrence, stripped — or the whole buffered
output when the header never occurred. -/
def extractFinalLyrics (full_output : String) : String :=
  let parts := pySplit "--- FINAL LYRICS ---" full_output
  if parts.length > 1 then pyStrip (parts.getLastD "") else full_output

/-- Seed resolution at the top of `stream_lyrics`:
`(seed or "").strip()`, falling back to `content["seed_prompt"]` and then
to the title. -/
def resolveSeed (song : Song) (seed : Option String) : String :=
  let s0 := pyStrip (seed.getD "")
  if s0 = "" then pyOrStr (cmGet (song.content.getD []) "seed_prompt") song.title
  else s0

/-- The body of the handler generator after anchors are settled: drain the
factory, rebuild `content` (`seed_prompt`, then `lyrics`), bump
`total_tokens` only when a positive usage amount was parsed, and commit
once at the very end. -/
def streamCore (r : Remote) (song : Song) (seed_text style rhyme_scheme : String)
    (anchors : Option (List String)) : List Ev × Song :=
  let chunks := (lyrics_factory_stream r song.title seed_text style rhyme_scheme anchors).fst
  let st := runStreamBody chunks
  let final_lyrics := extractFinalLyrics st.fst
  let c1 := cmSet (cmSet (song.content.getD []) "seed_prompt" seed_text)
              "lyrics" final_lyrics
  let tt := if st.snd.fst > 0 then song.total_tokens + st.snd.fst
            else song.total_tokens
  let s2 := { song with content := some c1, total_tokens := tt }
  (st.snd.snd.map Ev.emit ++ [Ev.commit s2], s2)

/-- `GET /songs/{id}/write_lyrics/stream` (`stream_lyrics`): 404 on a
missing id; when the song has no (truthy) vibe cloud the generator first
runs the Sensory Scout synchronously and assigns the anchors to the row
in memory (raising — an aborted, commit-free stream — when no client is
configured); then the factory output is drained to the client and the
single commit happens after the stream is exhausted. -/
def stream_lyrics (r : Remote) (db : Db) (song_id : Nat)
    (style rhyme_scheme : String) (seed : Option String) : StreamOut :=
  match dbGet db song_id with
  | none => .notFound
  | some song =>
    let seed_text := resolveSeed song seed
    let anchors0 : Option (List String) :=
      if vibeTruthy song.vibe_cloud then song.vibe_cloud else none
    if optFalsy anchors0 then
      if r.hasClient then
        let a := get_vibe_cloud_val r seed_text
        let song1 := { song with vibe_cloud := some a }
        let res := streamCore r song1 seed_text style rhyme_scheme (some a)
        .completed res.fst (dbSet db res.snd)
      else .aborted []
    else
      let res := streamCore r song seed_text style rhyme_scheme anchors0
      .completed res.fst (dbSet db res.snd)

/-- Request body of `POST /songs/{id}/refine_lyrics`. -/
structure RefineLyricsRequest where
  current_lyrics : String
  selection : String
  instruction : String
deriving DecidableEq

/-- `POST /songs/{id}/refine_lyrics`: 404 on a missing id, otherwise
return the rewritten excerpt only; no persistence. -/
def refine_lyrics (r : Remote) (db : Db) (song_id : Nat)
    (req : RefineLyricsRequest) : ApiResult String × Db × List Call :=
  match dbGet db song_id with
  | none => (.err 404, db, [])
  | some _ =>
    let rw := rewrite_text r req.current_lyrics req.selection req.instruction
    (.ok rw.fst, db, rw.snd)

/-! ## Reachable database states -/

/-- One API operation of the mutating surface the invariants range over. -/
inductive Op where
  | createOp (c : SongCreate) (now : Nat)
  | updateOp (song_id : Nat) (u : SongUpdate)
  | generateVibeOp (r : Remote) (song_id : Nat) (prompt : String)
  | streamOp (r : Remote) (song_id : Nat) (style rhyme_scheme : String)
      (seed : Option String)

/-- The database transition of one operation (error responses and aborted
streams leave the database unchanged, exactly as the handlers do). -/
def applyOp (db : Db) : Op → Db
  | .createOp c now => (create_song db c now).snd
  | .updateOp song_id u => (update_song db song_id u).snd
  | .generateVibeOp r song_id prompt => (generate_vibe r db song_id prompt).snd.fst
  | .streamOp r song_id style rhyme seed =>
    match stream_lyrics r db song_id style rhyme seed with
    | .completed _ db2 => db2
    | _ => db

/-- Database reached by a sequence of API operations from an empty store. -/
def reach (ops : List Op) : Db := ops.foldl applyOp []

/-! ## Observation helpers used by the claim statements -/

/-- The chunks delivered to the client in a stream outcome. -/
def emittedOf (o : StreamOut) : List String :=
  match o with
  | .notFound => []
  | .aborted evs => evs.filterMap (fun e => match e with
      | .emit c => some c
      | _ => none)
  | .completed evs _ => evs.filterMap (fun e => match e with
      | .emit c => some c
      | _ => none)

/-- The chunk of an emit event. -/
def evChunk : Ev → Option String
  | .emit c => some c
  | _ => none

/-- Whether an event is a commit. -/
def isCommitEv : Ev → Bool
  | .commit _ => true
  | _ => false

/-- Whether an event is an emission to the client. -/
def isEmitEv : Ev → Bool
  | .emit _ => true
  | _ => false

/-- The `content["lyrics"]` value readable by `GET /songs/{id}` after a
completed stream. -/
def storedLyricsOf (o : StreamOut) (song_id : Nat) : Option String :=
  match o with
  | .completed _ db2 =>
    (dbGet db2 song_id).bind (fun s => cmGet (s.content.getD []) "lyrics")
  | _ => none

/-! ## Derived definitions and concrete fixtures -/

/-- Whether the handler loop forwards a chunk to the client (anything not
starting with the usage-marker tag). -/
def notUsage (c : String) : Bool := !pyStartsWith c "__USAGE__:"

/-- The running `final_tokens` value the loop holds after the chunks. -/
def tokAfter (chunks : List String) (t : Int) : Int :=
  chunks.foldl (fun t2 c =>
    if pyStartsWith c "__USAGE__:" then ((pySplit ":" c).getD 1 "" |> pyInt?).getD t2
    else t2) t

/-- The anchor list the five factory stages actually receive (the scouted
anchors when the supplied ones are falsy). -/
def anchorsUsed (r : Remote) (seed : String) (anchors : Option (List String)) :
    List String :=
  if optFalsy anchors then get_vibe_cloud_val r seed else anchors.getD []

/-- The chunks the scout phase yields before the five stages. -/
def scoutChunks (r : Remote) (seed : String) (anchors : Option (List String)) :
    List String :=
  if optFalsy anchors then
    ["🔍 [Sensory Scout] Expanding vibes...\n",
     "✨ Anchors: " ++ pyJoin ", " (get_vibe_cloud_val r seed) ++ "\n\n"]
  else
    ["Using selected vibes...\n",
     "✨ Anchors: " ++ pyJoin ", " (anchors.getD []) ++ "\n\n"]

/-- The final lyrics of a factory run: the five stages composed in order,
each consuming the previous stage's full output. -/
def finalOf (r : Remote) (title seed style rhyme_scheme : String)
    (anchors : Option (List String)) : String :=
  sonic_polish r (rhythmist_polish r (editor_refine r
    (drafter_write r title (anchorsUsed r seed anchors)
      (architect_outline r title (anchorsUsed r seed anchors))
      style rhyme_scheme)))

/-- The in-memory song at the start of the stream: when the stored vibe
cloud is falsy the handler overwrites it with freshly scouted anchors. -/
def startSong (r : Remote) (song : Song) (seed : Option String) : Song :=
  if vibeTruthy song.vibe_cloud then song
  else { song with
    vibe_cloud := some (get_vibe_cloud_val r (resolveSeed song seed)) }

/-- The anchors the handler passes to the factory. -/
def startAnchors (r : Remote) (song : Song) (seed : Option String) :
    Option (List String) :=
  if vibeTruthy song.vibe_cloud then song.vibe_cloud
  else some (get_vibe_cloud_val r (resolveSeed song seed))

/-- A remote whose calls all succeed, with single-letter stage outputs. -/
def R0 : Remote :=
  { hasClient := true,
    brainstormResp := fun _ => .ok (some ["X"]),
    curateResp := fun _ => .ok (some ["X"]),
    architectResp := fun _ => "O",
    drafterResp := fun _ => "D",
    editorResp := fun _ => "E",
    rhythmistResp := fun _ => "R",
    sonicResp := fun _ => "S",
    rewriteResp := fun _ _ _ => "W" }

/-- A remote with no API key configured. -/
def RNoKey : Remote := { R0 with hasClient := false }

/-- A remote whose JSON-constrained calls raise. -/
def RFail : Remote :=
  { R0 with brainstormResp := fun _ => .error (),
            curateResp := fun _ => .error () }

/-- A song with a stored (truthy) vibe cloud. -/
def song1 : Song := { id := 1, title := "T", vibe_cloud := some ["V"] }

/-- A song with no vibe cloud. -/
def song2 : Song := { id := 1, title := "T" }

/-- A one-song database whose song has a vibe cloud. -/
def db1 : Db := [song1]

/-- A one-song database whose song has no vibe cloud. -/
def db2 : Db := [song2]

/-- The row committed at the end of a completed stream body. -/
def streamSong (r : Remote) (song : Song) (seed st rh : String)
    (anchors : Option (List String)) : Song :=
  { song with
    content := some (cmSet (cmSet (song.content.getD []) "seed_prompt" seed)
      "lyrics" (extractFinalLyrics (concatAll
        ((lyrics_factory_stream r song.title seed st rh anchors).fst.filter
          notUsage)))),
    total_tokens :=
      if tokAfter (lyrics_factory_stream r song.title seed st rh anchors).fst
          0 > 0 then
        song.total_tokens +
          tokAfter (lyrics_factory_stream r song.title seed st rh anchors).fst 0
      else song.total_tokens }

/-- The event list of a stream outcome. -/
def evsOf (o : StreamOut) : List Ev :=
  match o with
  | .completed evs _ => evs
  | .aborted evs => evs
  | .notFound => []

/-- Whether an operation is the explicit client update (`PUT`). -/
def isUpdateOp : Op → Bool
  | .updateOp _ _ => true
  | _ => false

/-- `dbC5`: a database with one song whose token counter starts at 7. -/
def dbC5 : Db := (create_song [] { title := "T", total_tokens := 7 } 0).snd

/-- Bound on a client-supplied vibe-cloud value. -/
def vibeLenOk : Option (List String) → Bool
  | none => true
  | some l => decide (l.length ≤ 5)

/-- Payload constraint under which the 5-entry bound is an invariant:
the AI-driven operations are unconstrained; create/update must not
themselves supply an oversized vibe cloud. -/
def opOk : Op → Bool
  | .createOp c _ => vibeLenOk c.vibe_cloud
  | .updateOp _ u =>
    match u.vibe_cloud with
    | none => true
    | some v => vibeLenOk v
  | _ => true

/-- The 5-entry bound on every stored vibe cloud. -/
def InvV (db : Db) : Prop :=
  ∀ s ∈ db, ∀ l, s.vibe_cloud = some l → l.length ≤ 5

/-! ## General lemmas about the string primitives -/

theorem strExt {a b : String} (h : a.data = b.data) : a = b := by
  cases a; cases b; exact congrArg String.mk h

theorem data_append (a b : String) : (a ++ b).data = a.data ++ b.data := rfl

theorem ofChars_append (a b : List Char) :
    ofChars a ++ ofChars b = ofChars (a ++ b) := rfl

theorem sAppend_assoc (a b c : String) : a ++ b ++ c = a ++ (b ++ c) :=
  strExt (by simp [data_append])

theorem sAppend_empty (a : String) : a ++ "" = a :=
  strExt (by simp [data_append])

theorem sEmpty_append (a : String) : "" ++ a = a :=
  strExt (by simp [data_append])

theorem concatAll_append (l₁ l₂ : List String) :
    concatAll (l₁ ++ l₂) = concatAll l₁ ++ concatAll l₂ := by
  induction l₁ with
  | nil => simp [concatAll, sEmpty_append]
  | cons a t ih => simp [concatAll, ih, sAppend_assoc]

theorem contains_of_mem {l : List String} {c : String} (h : c ∈ l) :
    Contains (concatAll l) c := by
  induction l with
  | nil => cases h
  | cons a t ih =>
    cases h with
    | head => exact ⟨"", concatAll t, by rw [sEmpty_append]; rfl⟩
    | tail _ h2 =>
      obtain ⟨p, q, hpq⟩ := ih h2
      exact ⟨a ++ p, q, by rw [concatAll, hpq]; simp [sAppend_assoc]⟩

theorem pySplitAux_ne_nil (sep : List Char) (fuel : Nat) (l : List Char) :
    pySplitAux sep fuel l ≠ [] := by
  match fuel, l with
  | _, [] => simp [pySplitAux]
  | 0, c :: rest => simp [pySplitAux]
  | fuel + 1, c :: rest =>
    simp only [pySplitAux]
    split
    · simp
    · split <;> simp

theorem pySplitAux_space_concat :
    ∀ (fuel : Nat) (l : List Char), l.length ≤ fuel →
      ((pySplitAux [' '] fuel l).map (fun p => p ++ [' '])).foldr
          (fun a b => a ++ b) [] = l ++ [' '] := by
  intro fuel
  induction fuel with
  | zero =>
    intro l hl
    cases l with
    | nil => simp [pySplitAux]
    | cons c rest => simp at hl
  | succ fuel ih =>
    intro l hl
    cases l with
    | nil => simp [pySplitAux]
    | cons c rest =>
      have hpre : List.isPrefixOf [' '] (c :: rest) = (' ' == c) := by
        simp [List.isPrefixOf]
      simp only [pySplitAux, hpre]
      by_cases hc : ' ' = c
      · subst hc
        have hd : List.drop ([' '].length - 1) rest = rest := by simp
        simp only [beq_self_eq_true, if_true, hd, List.map_cons,
          List.foldr_cons, List.nil_append]
        rw [ih rest (by simpa using hl)]
        rfl
      · have hcb : (' ' == c) = false := by simpa using hc
        rw [hcb]
        simp only [Bool.false_eq_true, if_false]
        rcases hsp : pySplitAux [' '] fuel rest with _ | ⟨h, t⟩
        · exact absurd hsp (pySplitAux_ne_nil _ _ _)
        · have ihr := ih rest (by simpa using hl)
          rw [hsp] at ihr
          simp only [List.map_cons, List.foldr_cons] at ihr ⊢
          rw [List.cons_append, List.cons_append, ihr]
          rfl

theorem concatAll_map_ofChars (l : List (List Char)) :
    concatAll (l.map ofChars) = ofChars (l.foldr (fun a b => a ++ b) []) := by
  induction l with
  | nil => rfl
  | cons a t ih =>
    simp only [List.map_cons, concatAll, List.foldr_cons, ih, ofChars_append]

theorem concatAll_wordChunks (s : String) : concatAll (wordChunks s) = s ++ " " := by
  have key := pySplitAux_space_concat s.data.length s.data (le_refl _)
  have h2 := concatAll_map_ofChars
    ((pySplitAux [' '] s.data.length s.data).map (fun p => p ++ [' ']))
  rw [key] at h2
  have h1 : wordChunks s =
      ((pySplitAux [' '] s.data.length s.data).map (fun p => p ++ [' '])).map
        ofChars := by
    simp only [wordChunks, pySplit]
    rw [if_neg (by decide : ¬(((" " : String).data.isEmpty) = true))]
    rw [List.map_map, List.map_map]
    rfl
  rw [h1, h2]
  rfl

/-! ## The handler loop, characterized -/

theorem foldl_stepChunk (chunks : List String) (f : String) (t : Int)
    (es : List String) :
    chunks.foldl stepChunk (f, t, es) =
      (f ++ concatAll (chunks.filter notUsage), tokAfter chunks t,
       es ++ chunks.filter notUsage) := by
  induction chunks generalizing f t es with
  | nil => simp [concatAll, tokAfter, sAppend_empty]
  | cons c rest ih =>
    by_cases hc : pyStartsWith c "__USAGE__:" = true
    · have hstep : stepChunk (f, t, es) c =
          (f, ((pySplit ":" c).getD 1 "" |> pyInt?).getD t, es) := by
        simp [stepChunk, hc]
      have hfil : (c :: rest).filter notUsage = rest.filter notUsage := by
        simp [List.filter_cons, notUsage, hc]
      have htok : tokAfter (c :: rest) t =
          tokAfter rest (((pySplit ":" c).getD 1 "" |> pyInt?).getD t) := by
        simp [tokAfter, List.foldl_cons, hc]
      rw [List.foldl_cons, hstep, ih, hfil, htok]
    · have hcf : pyStartsWith c "__USAGE__:" = false := by
        simpa using hc
      have hstep : stepChunk (f, t, es) c = (f ++ c, t, es ++ [c]) := by
        simp [stepChunk, hcf]
      have hfil : (c :: rest).filter notUsage = c :: rest.filter notUsage := by
        simp [List.filter_cons, notUsage, hcf]
      have htok : tokAfter (c :: rest) t = tokAfter rest t := by
        simp [tokAfter, List.foldl_cons, hcf]
      rw [List.foldl_cons, hstep, ih, hfil, htok]
      simp [concatAll, sAppend_assoc]

theorem runStreamBody_eq (chunks : List String) :
    runStreamBody chunks =
      (concatAll (chunks.filter notUsage), tokAfter chunks 0,
       chunks.filter notUsage) := by
  rw [runStreamBody, foldl_stepChunk]
  simp [sEmpty_append]

/-! ## Mapping and database lemmas -/

theorem any_false_find?_none {α : Type} (p : α → Bool) (l : List α)
    (h : l.any p = false) : l.find? p = none := by
  induction l with
  | nil => rfl
  | cons a t ih =>
    rw [List.any_cons] at h
    simp only [Bool.or_eq_false_iff] at h
    rw [List.find?_cons_of_neg _ (by simp [h.1])]
    exact ih h.2

theorem find?_map_invariant {α : Type} (f : α → α) (pr : α → Bool) (l : List α)
    (h1 : ∀ q, pr (f q) = pr q) (h2 : ∀ q, pr q = true → f q = q) :
    (l.map f).find? pr = l.find? pr := by
  induction l with
  | nil => rfl
  | cons q t ih =>
    by_cases hq : pr q = true
    · have hfq : pr (f q) = true := by rw [h1]; exact hq
      rw [List.map_cons, List.find?_cons_of_pos _ hfq,
        List.find?_cons_of_pos _ hq, h2 q hq]
    · have hqf : pr q = false := by simpa using hq
      have hfq : pr (f q) = false := by rw [h1]; exact hqf
      rw [List.map_cons, List.find?_cons_of_neg _ (by simp [hfq]),
        List.find?_cons_of_neg _ (by simp [hqf]), ih]

theorem cmGet_cmSet_self (m : ContentMap) (k v : String) :
    cmGet (cmSet m k v) k = some v := by
  induction m with
  | nil => simp [cmGet, cmSet]
  | cons p t ih =>
    by_cases hp : (p.fst == k) = true
    · have hany : ((p :: t).any (fun q => q.fst == k)) = true := by
        simp [List.any_cons, hp]
      rw [cmSet, if_pos hany, List.map_cons, if_pos hp, cmGet,
        List.find?_cons_of_pos _ (by simp)]
      rfl
    · have hpf : (p.fst == k) = false := by simpa using hp
      by_cases ha : (t.any (fun q => q.fst == k)) = true
      · have ih2 := ih
        rw [cmSet, if_pos ha] at ih2
        have hany : ((p :: t).any (fun q => q.fst == k)) = true := by
          simp [List.any_cons, ha]
        rw [cmSet, if_pos hany, List.map_cons, if_neg (by simp [hpf]), cmGet,
          List.find?_cons_of_neg _ (by simp [hpf])]
        exact ih2
      · have haf : (t.any (fun q => q.fst == k)) = false := Bool.eq_false_iff.mpr ha
        have hany : ((p :: t).any (fun q => q.fst == k)) = false := by
          simp [List.any_cons, hpf, haf]
        have hnone : t.find? (fun q => q.fst == k) = none :=
          any_false_find?_none _ _ haf
        rw [cmSet, if_neg (by simp [hany]), List.cons_append, cmGet,
          List.find?_cons_of_neg _ (by simp [hpf]), List.find?_append, hnone]
        simp

theorem cmGet_cmSet_ne (m : ContentMap) (k v k2 : String) (h : k2 ≠ k) :
    cmGet (cmSet m k v) k2 = cmGet m k2 := by
  have hk : (k == k2) = false := by
    simp only [beq_eq_false_iff_ne]
    exact Ne.symm h
  rw [cmSet]
  by_cases ha : (m.any (fun q => q.fst == k)) = true
  · rw [if_pos ha]
    unfold cmGet
    rw [find?_map_invariant]
    · intro q
      by_cases hq : (q.fst == k) = true
      · have hq2 : q.fst = k := by simpa using hq
        rw [if_pos hq]
        show ((k, v).fst == k2) = (q.fst == k2)
        rw [hq2]
      · rw [if_neg hq]
    · intro q hq2
      have hq3 : q.fst = k2 := by simpa using hq2
      rw [if_neg]
      simp only [hq3, beq_iff_eq]
      exact h
  · rw [if_neg ha]
    unfold cmGet
    rw [List.find?_append]
    have hlast : List.find? (fun p => p.fst == k2) [(k, v)] = none := by
      simp [List.find?, hk]
    rw [hlast]
    simp

theorem dbGet_dbSet_ne (db : Db) (s : Song) (i : Nat) (h : s.id ≠ i) :
    dbGet (dbSet db s) i = dbGet db i := by
  unfold dbGet dbSet
  apply find?_map_invariant
  · intro q
    by_cases hq : (q.id == s.id) = true
    · have hq2 : q.id = s.id := by simpa using hq
      rw [if_pos hq]
      show (s.id == i) = (q.id == i)
      rw [hq2]
    · rw [if_neg hq]
  · intro q hq2
    have hq3 : q.id = i := by simpa using hq2
    rw [if_neg]
    simp only [hq3, beq_iff_eq]
    exact fun hh => h hh.symm

theorem dbGet_dbSet_self (db : Db) (s : Song)
    (h : (dbGet db s.id).isSome = true) :
    dbGet (dbSet db s) s.id = some s := by
  induction db with
  | nil => simp [dbGet] at h
  | cons t d ih =>
    by_cases ht : (t.id == s.id) = true
    · rw [dbSet, List.map_cons, if_pos ht, dbGet,
        List.find?_cons_of_pos _ (by simp)]
    · have htf : (t.id == s.id) = false := by simpa using ht
      rw [dbGet, List.find?_cons_of_neg _ (by simp [htf])] at h
      rw [dbSet, List.map_cons, if_neg (by simp [htf]), dbGet,
        List.find?_cons_of_neg _ (by simp [htf])]
      exact ih h

theorem dbGet_append_left {db : Db} {i : Nat} {s : Song} (l : Db)
    (h : dbGet db i = some s) : dbGet (db ++ l) i = some s := by
  unfold dbGet at h ⊢
  rw [List.find?_append, h]
  rfl

theorem dbGet_id {db : Db} {i : Nat} {s : Song} (h : dbGet db i = some s) :
    s.id = i := by
  have h2 := List.find?_some h
  simpa using h2

theorem mem_of_dbGet {db : Db} {i : Nat} {s : Song} (h : dbGet db i = some s) :
    s ∈ db :=
  List.mem_of_find?_eq_some h

theorem mem_dbSet {db : Db} {s u : Song} (h : u ∈ dbSet db s) :
    u = s ∨ u ∈ db := by
  unfold dbSet at h
  obtain ⟨t, ht, hu⟩ := List.mem_map.mp h
  by_cases h2 : (t.id == s.id) = true
  · rw [if_pos h2] at hu
    exact Or.inl hu.symm
  · rw [if_neg h2] at hu
    rw [← hu]
    exact Or.inr ht

/-! ## Gateway lemmas -/

theorem curate_le5 (r : Remote) (p : String) (cs : List String) :
    (curate_vibe_anchors r p cs).fst.length ≤ 5 := by
  unfold curate_vibe_anchors
  split
  · simp
  · split <;>
      · simp only [List.length_take]
        exact Nat.min_le_left _ _

theorem get_vibe_cloud_val_le5 (r : Remote) (p : String) :
    (get_vibe_cloud_val r p).length ≤ 5 :=
  curate_le5 r p (generate_vibe_candidates r p).fst

theorem filterMap_evChunk (E : List String) (s : Song) :
    (E.map Ev.emit ++ [Ev.commit s]).filterMap evChunk = E := by
  rw [List.filterMap_append]
  have h1 : (E.map Ev.emit).filterMap evChunk = E := by
    induction E with
    | nil => rfl
    | cons c t ih => simp [List.filterMap_cons, evChunk, ih]
  have h2 : List.filterMap evChunk [Ev.commit s] = [] := rfl
  rw [h1, h2, List.append_nil]

/-! ## Factory and handler characterizations -/

theorem factory_chunks (r : Remote) (hc : r.hasClient = true)
    (title seed style rhyme : String) (anchors : Option (List String)) :
    (lyrics_factory_stream r title seed style rhyme anchors).fst =
      scoutChunks r seed anchors ++
        [architectMsg, drafterMsg, editorMsg, rhythmistMsg, sonicMsg,
         finalHeader] ++
        wordChunks (finalOf r title seed style rhyme anchors) ++ [usageChunk] := by
  unfold lyrics_factory_stream scoutChunks finalOf anchorsUsed
  rw [hc]
  by_cases hf : optFalsy anchors = true
  · simp [hf]
  · have hff : optFalsy anchors = false := Bool.eq_false_iff.mpr hf
    simp [hff]

theorem factory_calls (r : Remote) (hc : r.hasClient = true)
    (title seed style rhyme : String) (anchors : Option (List String)) :
    ∃ pre : List Call,
      (lyrics_factory_stream r title seed style rhyme anchors).snd =
        pre ++ [Call.architect, Call.drafter, Call.editor, Call.rhythmist,
          Call.sonic] := by
  unfold lyrics_factory_stream
  rw [hc]
  by_cases hf : optFalsy anchors = true
  · exact ⟨(get_vibe_cloud r seed).snd, by simp [hf]⟩
  · have hff : optFalsy anchors = false := Bool.eq_false_iff.mpr hf
    exact ⟨[], by simp [hff]⟩

theorem stream_lyrics_eq (r : Remote) (db : Db) (i : Nat) (st rh : String)
    (sd : Option String) (song : Song) (hs : dbGet db i = some song)
    (hc : r.hasClient = true) :
    stream_lyrics r db i st rh sd =
      .completed
        (streamCore r (startSong r song sd) (resolveSeed song sd) st rh
          (startAnchors r song sd)).fst
        (dbSet db (streamCore r (startSong r song sd) (resolveSeed song sd)
          st rh (startAnchors r song sd)).snd) := by
  unfold stream_lyrics startSong startAnchors
  rw [hs]
  by_cases hv : vibeTruthy song.vibe_cloud = true
  · simp [hv, optFalsy]
  · have hvf : vibeTruthy song.vibe_cloud = false := Bool.eq_false_iff.mpr hv
    have h0 : vibeTruthy (none : Option (List String)) = false := rfl
    simp [hvf, hc, optFalsy, h0]

theorem streamCore_eq (r : Remote) (song : Song) (seed st rh : String)
    (anchors : Option (List String)) :
    streamCore r song seed st rh anchors =
      (let chunks := (lyrics_factory_stream r song.title seed st rh anchors).fst
       let E := chunks.filter notUsage
       let tok := tokAfter chunks 0
       let s2 : Song := { song with
         content := some (cmSet (cmSet (song.content.getD [])
           "seed_prompt" seed) "lyrics" (extractFinalLyrics (concatAll E))),
         total_tokens := if tok > 0 then song.total_tokens + tok
           else song.total_tokens }
       (E.map Ev.emit ++ [Ev.commit s2], s2)) := by
  unfold streamCore
  simp only [runStreamBody_eq]

/-! ## Concrete fixtures for witnesses and counterexamples -/

/-! ## Claims -/

/-- C4: vibe-cloud curation called with an empty candidate list returns an
empty list without calling the generation service; for any non-empty
candidate list, if the curation call raises or returns no text the
function returns exactly the first 5 candidates in their original order;
and brainstorm failure makes candidate generation return an empty list. -/
theorem C4_curation_fallbacks (r : Remote) (p : String) (cands : List String)
    (hne : cands ≠ [])
    (hfail : r.curateResp (curatePrompt p cands) = .error () ∨
             r.curateResp (curatePrompt p cands) = .ok none) :
    curate_vibe_anchors r p [] = ([], []) ∧
    curate_vibe_anchors r p cands = (cands.take 5, [Call.curate]) ∧
    (∀ q : String, r.brainstormResp q = .error () →
      generate_vibe_candidates r q = ([], [Call.brainstorm])) := by
  refine ⟨rfl, ?_, ?_⟩
  · unfold curate_vibe_anchors
    rw [if_neg (by simpa using hne)]
    rcases hfail with h | h <;> rw [h]
  · intro q hq
    unfold generate_vibe_candidates
    rw [hq]

/-- Witness for C4 at a concrete failing remote and candidate list. -/
theorem C4_curation_fallbacks_witness :
    curate_vibe_anchors RFail "p" [] = ([], []) ∧
    curate_vibe_anchors RFail "p" ["a", "b", "c", "d", "e", "f"] =
      (["a", "b", "c", "d", "e", "f"].take 5, [Call.curate]) ∧
    (∀ q : String, RFail.brainstormResp q = .error () →
      generate_vibe_candidates RFail q = ([], [Call.brainstorm])) :=
  C4_curation_fallbacks RFail "p" ["a", "b", "c", "d", "e", "f"]
    (by decide) (Or.inl rfl)

/-- C8: generating a vibe cloud for a nonexistent song id returns a 404,
performs no AI call, and leaves the database unchanged (the same `db`
value is returned: no row created, none altered). -/
theorem C8_generate_vibe_not_found (r : Remote) (db : Db) (song_id : Nat)
    (prompt : String) (h : dbGet db song_id = none) :
    generate_vibe r db song_id prompt = (.err 404, db, []) := by
  unfold generate_vibe
  rw [h]

/-- Witness for C8 on an empty database. -/
theorem C8_generate_vibe_not_found_witness :
    generate_vibe R0 [] 1 "p" = (.err 404, [], []) :=
  C8_generate_vibe_not_found R0 [] 1 "p" rfl

/-- C10: with no API key configured `rewrite_text` returns the selection
argument unchanged instead of raising, so `refine_lyrics` on an existing
song succeeds and returns the request's selection verbatim (no remote
call, database untouched). -/
theorem C10_refine_no_key (r : Remote) (db : Db) (song_id : Nat)
    (req : RefineLyricsRequest) (hkey : r.hasClient = false)
    (hs : (dbGet db song_id).isSome = true) :
    rewrite_text r req.current_lyrics req.selection req.instruction =
      (req.selection, []) ∧
    refine_lyrics r db song_id req = (.ok req.selection, db, []) := by
  have h1 : rewrite_text r req.current_lyrics req.selection req.instruction
      = (req.selection, []) := by
    unfold rewrite_text
    rw [hkey]
    rfl
  refine ⟨h1, ?_⟩
  unfold refine_lyrics
  rcases hg : dbGet db song_id with _ | s
  · rw [hg] at hs
    simp at hs
  · simp [h1]

/-- Witness for C10: no-key remote, existing song, concrete request. -/
theorem C10_refine_no_key_witness :
    rewrite_text RNoKey "ctx" "sel" "ins" = ("sel", []) ∧
    refine_lyrics RNoKey db1 1
      { current_lyrics := "ctx", selection := "sel", instruction := "ins" } =
      (.ok "sel", db1, []) :=
  C10_refine_no_key RNoKey db1 1
    { current_lyrics := "ctx", selection := "sel", instruction := "ins" }
    rfl rfl

/-- C7: with credentials configured, the Lyrics Factory invokes its five
stages in the fixed order architect → drafter → editor → rhythmist →
sonic (the remote-call trace ends with exactly those five calls in that
order), each stage receiving the previous stage's full output (the final
text is the five-fold composition `finalOf`, whose definition feeds every
stage the preceding stage's result); and the concatenation of the emitted
stream contains each stage's progress marker and contains the final
stage's output verbatim. -/
theorem C7_factory_pipeline (r : Remote) (title seed style rhyme : String)
    (anchors : Option (List String)) (hc : r.hasClient = true) :
    (∃ pre : List Call,
      (lyrics_factory_stream r title seed style rhyme anchors).snd =
        pre ++ [Call.architect, Call.drafter, Call.editor, Call.rhythmist,
          Call.sonic]) ∧
    Contains (concatAll (lyrics_factory_stream r title seed style rhyme
      anchors).fst) architectMsg ∧
    Contains (concatAll (lyrics_factory_stream r title seed style rhyme
      anchors).fst) drafterMsg ∧
    Contains (concatAll (lyrics_factory_stream r title seed style rhyme
      anchors).fst) editorMsg ∧
    Contains (concatAll (lyrics_factory_stream r title seed style rhyme
      anchors).fst) rhythmistMsg ∧
    Contains (concatAll (lyrics_factory_stream r title seed style rhyme
      anchors).fst) sonicMsg ∧
    Contains (concatAll (lyrics_factory_stream r title seed style rhyme
      anchors).fst) (finalOf r title seed style rhyme anchors) := by
  have hch := factory_chunks r hc title seed style rhyme anchors
  refine ⟨factory_calls r hc title seed style rhyme anchors,
    ?_, ?_, ?_, ?_, ?_, ?_⟩
  · rw [hch]; exact contains_of_mem (by simp)
  · rw [hch]; exact contains_of_mem (by simp)
  · rw [hch]; exact contains_of_mem (by simp)
  · rw [hch]; exact contains_of_mem (by simp)
  · rw [hch]; exact contains_of_mem (by simp)
  · rw [hch]
    refine ⟨concatAll (scoutChunks r seed anchors ++
        [architectMsg, drafterMsg, editorMsg, rhythmistMsg, sonicMsg,
         finalHeader]),
      " " ++ concatAll [usageChunk], ?_⟩
    rw [concatAll_append, concatAll_append, concatAll_wordChunks]
    simp [sAppend_assoc]

/-- Witness for C7: the pipeline at a concrete remote and inputs. -/
theorem C7_factory_pipeline_witness :
    (∃ pre : List Call,
      (lyrics_factory_stream R0 "T" "seed" "Modern" "Free Verse"
        (some ["V"])).snd =
        pre ++ [Call.architect, Call.drafter, Call.editor, Call.rhythmist,
          Call.sonic]) ∧
    Contains (concatAll (lyrics_factory_stream R0 "T" "seed" "Modern"
      "Free Verse" (some ["V"])).fst) architectMsg ∧
    Contains (concatAll (lyrics_factory_stream R0 "T" "seed" "Modern"
      "Free Verse" (some ["V"])).fst) drafterMsg ∧
    Contains (concatAll (lyrics_factory_stream R0 "T" "seed" "Modern"
      "Free Verse" (some ["V"])).fst) editorMsg ∧
    Contains (concatAll (lyrics_factory_stream R0 "T" "seed" "Modern"
      "Free Verse" (some ["V"])).fst) rhythmistMsg ∧
    Contains (concatAll (lyrics_factory_stream R0 "T" "seed" "Modern"
      "Free Verse" (some ["V"])).fst) sonicMsg ∧
    Contains (concatAll (lyrics_factory_stream R0 "T" "seed" "Modern"
      "Free Verse" (some ["V"])).fst)
      (finalOf R0 "T" "seed" "Modern" "Free Verse" (some ["V"])) :=
  C7_factory_pipeline R0 "T" "seed" "Modern" "Free Verse" (some ["V"]) rfl

theorem streamCore_eq2 (r : Remote) (song : Song) (seed st rh : String)
    (anchors : Option (List String)) :
    streamCore r song seed st rh anchors =
      (((lyrics_factory_stream r song.title seed st rh anchors).fst.filter
          notUsage).map Ev.emit ++
        [Ev.commit (streamSong r song seed st rh anchors)],
       streamSong r song seed st rh anchors) := by
  rw [streamCore_eq]
  rfl

theorem startSong_id (r : Remote) (song : Song) (seed : Option String) :
    (startSong r song seed).id = song.id := by
  unfold startSong
  split <;> rfl

/-- Counterexample to C1 as stated: on a concrete completed streaming run,
the value stored under `content["lyrics"]` is NOT the concatenation of
the chunks delivered to the client with the synthetic usage-marker chunk
excluded: the handler persists only the stripped text after the
final-lyrics header, and the usage marker (unrecognized because of its
two leading newlines) is even part of the stored value. -/
theorem C1_counterexample :
    storedLyricsOf (stream_lyrics R0 db1 1 "Modern" "Free Verse" none) 1 ≠
      some (concatAll ((emittedOf (stream_lyrics R0 db1 1 "Modern"
        "Free Verse" none)).filter (fun c => c != usageChunk))) := by
  decide

/-- C1 (amended): for every streaming lyrics call on an existing song with
credentials configured, the call completes with a single trailing commit,
and the committed (and subsequently fetchable) `content["lyrics"]` value
equals `extractFinalLyrics` applied to the concatenation of all chunks
delivered to the client — the stripped text after the last
`"--- FINAL LYRICS ---"` header (the whole concatenation only when that
header never occurs).  The synthetic usage-marker chunk is not excluded:
it is among the delivered chunks (and hence inside the stored value). -/
theorem C1_amended (r : Remote) (db : Db) (song_id : Nat)
    (style rhyme : String) (seed : Option String) (song : Song)
    (hs : dbGet db song_id = some song) (hc : r.hasClient = true) :
    ∃ emitted : List String, ∃ db2 : Db, ∃ s2 : Song,
      stream_lyrics r db song_id style rhyme seed =
        .completed (emitted.map Ev.emit ++ [Ev.commit s2]) db2 ∧
      dbGet db2 song_id = some s2 ∧
      cmGet (s2.content.getD []) "lyrics" =
        some (extractFinalLyrics (concatAll emitted)) ∧
      usageChunk ∈ emitted := by
  have heq := stream_lyrics_eq r db song_id style rhyme seed song hs hc
  rw [streamCore_eq2] at heq
  refine ⟨(lyrics_factory_stream r (startSong r song seed).title
      (resolveSeed song seed) style rhyme (startAnchors r song seed)).fst.filter
        notUsage,
    dbSet db (streamSong r (startSong r song seed) (resolveSeed song seed)
      style rhyme (startAnchors r song seed)),
    streamSong r (startSong r song seed) (resolveSeed song seed) style rhyme
      (startAnchors r song seed), heq, ?_, ?_, ?_⟩
  · have hid : (streamSong r (startSong r song seed) (resolveSeed song seed)
        style rhyme (startAnchors r song seed)).id = song_id := by
      show (startSong r song seed).id = song_id
      rw [startSong_id]
      exact dbGet_id hs
    rw [← hid]
    apply dbGet_dbSet_self
    rw [hid, hs]
    rfl
  · exact cmGet_cmSet_self _ _ _
  · rw [factory_chunks r hc]
    refine List.mem_filter.mpr ⟨by simp, by decide⟩

/-- Witness for C1 (amended) at a concrete remote and database. -/
theorem C1_amended_witness :
    ∃ emitted : List String, ∃ db2 : Db, ∃ s2 : Song,
      stream_lyrics R0 db1 1 "Modern" "Free Verse" none =
        .completed (emitted.map Ev.emit ++ [Ev.commit s2]) db2 ∧
      dbGet db2 1 = some s2 ∧
      cmGet (s2.content.getD []) "lyrics" =
        some (extractFinalLyrics (concatAll emitted)) ∧
      usageChunk ∈ emitted :=
  C1_amended R0 db1 1 "Modern" "Free Verse" none song1 rfl rfl

/-- C2 (code bug): the handler checks `chunk.startswith("__USAGE__:")`,
but the marker chunk the pipeline actually yields starts with two
newlines, so the check never matches: on a concrete completed run the
marker chunk is delivered to the client verbatim and its text ends up
inside the stored `content["lyrics"]`, contradicting the claim (and the
evident intent of the handler's own parsing branch). -/
theorem C2_usage_marker_leak :
    pyStartsWith usageChunk "__USAGE__:" = false ∧
    usageChunk ∈ emittedOf (stream_lyrics R0 db1 1 "Modern" "Free Verse"
      none) ∧
    pyContainsB ((storedLyricsOf (stream_lyrics R0 db1 1 "Modern"
      "Free Verse" none) 1).getD "") "__USAGE__:1500" = true := by
  decide

theorem filter_commit_emits (E : List String) (s : Song) :
    (E.map Ev.emit ++ [Ev.commit s]).filter isCommitEv = [Ev.commit s] := by
  rw [List.filter_append]
  have h1 : (E.map Ev.emit).filter isCommitEv = [] := by
    induction E with
    | nil => rfl
    | cons c t ih => simp [List.filter_cons, isCommitEv, ih]
  rw [h1]
  rfl

/-- Counterexample to C3 as stated: a concrete stream on a song with no
vibe cloud.  In the event trace the only commit is the very last event
(index `length - 1`), an emission is the very first event (index 0), and
a lyric-text chunk (`"S "`) is emitted strictly before the commit — so
nothing is persisted to the song row before lyric text is streamed,
contrary to the claim. -/
theorem C3_counterexample :
    (evsOf (stream_lyrics R0 db2 1 "Modern" "Free Verse" none)).findIdx?
        isCommitEv =
      some ((evsOf (stream_lyrics R0 db2 1 "Modern" "Free Verse"
        none)).length - 1) ∧
    (evsOf (stream_lyrics R0 db2 1 "Modern" "Free Verse" none)).findIdx?
        isEmitEv = some 0 ∧
    Ev.emit "S " ∈ (evsOf (stream_lyrics R0 db2 1 "Modern" "Free Verse"
      none)).take ((evsOf (stream_lyrics R0 db2 1 "Modern" "Free Verse"
      none)).length - 1) := by
  decide

/-- C3 (amended): when the vibe cloud is absent (falsy) at stream start
and credentials are configured, the handler does generate the anchors
synchronously before any chunk is produced and assigns them wholesale to
the in-memory row, but it does not commit them before streaming: the
completed stream performs exactly one commit, as its final event after
every emission, and that single commit carries the complete scouted
anchor list (so no partial vibe cloud is ever committed). -/
theorem C3_amended (r : Remote) (db : Db) (song_id : Nat)
    (style rhyme : String) (seed : Option String) (song : Song)
    (hs : dbGet db song_id = some song) (hc : r.hasClient = true)
    (hv : vibeTruthy song.vibe_cloud = false) :
    ∃ emitted : List String, ∃ s2 : Song,
      stream_lyrics r db song_id style rhyme seed =
        .completed (emitted.map Ev.emit ++ [Ev.commit s2]) (dbSet db s2) ∧
      s2.vibe_cloud = some (get_vibe_cloud_val r (resolveSeed song seed)) ∧
      ((emitted.map Ev.emit ++ [Ev.commit s2]).filter isCommitEv).length
        = 1 := by
  have heq := stream_lyrics_eq r db song_id style rhyme seed song hs hc
  rw [streamCore_eq2] at heq
  refine ⟨(lyrics_factory_stream r (startSong r song seed).title
      (resolveSeed song seed) style rhyme (startAnchors r song seed)).fst.filter
        notUsage,
    streamSong r (startSong r song seed) (resolveSeed song seed) style rhyme
      (startAnchors r song seed), heq, ?_, ?_⟩
  · show (startSong r song seed).vibe_cloud = _
    unfold startSong
    rw [if_neg (by simp [hv])]
  · rw [filter_commit_emits]
    rfl

/-- Witness for C3 (amended) at a concrete remote and database. -/
theorem C3_amended_witness :
    ∃ emitted : List String, ∃ s2 : Song,
      stream_lyrics R0 db2 1 "Modern" "Free Verse" none =
        .completed (emitted.map Ev.emit ++ [Ev.commit s2]) (dbSet db2 s2) ∧
      s2.vibe_cloud = some (get_vibe_cloud_val R0 (resolveSeed song2 none)) ∧
      ((emitted.map Ev.emit ++ [Ev.commit s2]).filter isCommitEv).length
        = 1 :=
  C3_amended R0 db2 1 "Modern" "Free Verse" none song2 rfl rfl rfl

theorem get_vibe_cloud_ok_val (r : Remote) (p : String) (a : List String)
    (cs : List Call) (h : get_vibe_cloud r p = (.ok a, cs)) :
    a = get_vibe_cloud_val r p := by
  unfold get_vibe_cloud at h
  by_cases hc : r.hasClient = true
  · rw [if_pos hc] at h
    simp only [Prod.mk.injEq, Except.ok.injEq] at h
    rw [← h.1]
    rfl
  · rw [if_neg hc] at h
    simp at h

theorem generate_vibe_db (r : Remote) (db : Db) (i : Nat) (p : String) :
    (generate_vibe r db i p).snd.fst = db ∨
    ∃ s0, dbGet db i = some s0 ∧
      (generate_vibe r db i p).snd.fst =
        dbSet db { s0 with
          vibe_cloud := some (get_vibe_cloud_val r p),
          content := some (cmSet (s0.content.getD []) "seed_prompt" p) } := by
  unfold generate_vibe
  rcases hg : dbGet db i with _ | s0
  · left; rfl
  · rcases hr : get_vibe_cloud r p with ⟨exc, cs⟩
    cases exc with
    | error e => left; rfl
    | ok anchors =>
      right
      refine ⟨s0, rfl, ?_⟩
      have hv := get_vibe_cloud_ok_val r p anchors cs hr
      show dbSet db { s0 with vibe_cloud := some anchors, content := some (cmSet (s0.content.getD []) "seed_prompt" p) } = dbSet db { s0 with vibe_cloud := some (get_vibe_cloud_val r p), content := some (cmSet (s0.content.getD []) "seed_prompt" p) }
      rw [hv]

theorem streamSong_total_ge (r : Remote) (song : Song) (seed st rh : String)
    (a : Option (List String)) :
    song.total_tokens ≤ (streamSong r song seed st rh a).total_tokens := by
  unfold streamSong
  simp only
  split
  · omega
  · exact le_refl _

theorem stream_completed_inv (r : Remote) (db : Db) (i : Nat) (st rh : String)
    (sd : Option String) (evs : List Ev) (db2 : Db)
    (h : stream_lyrics r db i st rh sd = .completed evs db2) :
    ∃ song s2, dbGet db i = some song ∧ db2 = dbSet db s2 ∧
      s2.id = song.id ∧
      (s2.vibe_cloud = song.vibe_cloud ∨
        s2.vibe_cloud = some (get_vibe_cloud_val r (resolveSeed song sd))) ∧
      song.total_tokens ≤ s2.total_tokens := by
  unfold stream_lyrics at h
  rcases hg : dbGet db i with _ | song
  · rw [hg] at h
    exact absurd h (by simp)
  · rw [hg] at h
    by_cases hv : vibeTruthy song.vibe_cloud = true
    · simp only [hv, if_true, optFalsy, Bool.not_true, Bool.false_eq_true,
        if_false] at h
      rw [streamCore_eq2] at h
      simp only [StreamOut.completed.injEq] at h
      exact ⟨song, _, rfl, h.2.symm, rfl, Or.inl rfl,
        streamSong_total_ge r song (resolveSeed song sd) st rh
          song.vibe_cloud⟩
    · have hvf : vibeTruthy song.vibe_cloud = false := Bool.eq_false_iff.mpr hv
      have h0 : vibeTruthy (none : Option (List String)) = false := rfl
      simp only [hvf, Bool.false_eq_true, if_false, optFalsy, h0,
        Bool.not_false, if_true] at h
      by_cases hc : r.hasClient = true
      · rw [if_pos hc] at h
        rw [streamCore_eq2] at h
        simp only [StreamOut.completed.injEq] at h
        exact ⟨song, _, rfl, h.2.symm, rfl, Or.inr rfl,
          streamSong_total_ge r _ (resolveSeed song sd) st rh _⟩
      · rw [if_neg hc] at h
        simp at h

/-- Counterexample to C5 as stated: (a) the explicit update operation —
one of the API operations the claim quantifies over — lowers the stored
`total_tokens` of an existing song from 7 to 3, so the counter is not
monotone; and (b) a completed streaming run whose pipeline emits the
usage marker reporting 1500 tokens leaves `total_tokens` at 0: the
reported usage is never added (the marker chunk is delivered instead of
parsed). -/
theorem C5_counterexample :
    ((dbGet dbC5 1).map Song.total_tokens) = some 7 ∧
    ((dbGet (applyOp dbC5 (.updateOp 1 { total_tokens := some 3 })) 1).map
      Song.total_tokens) = some 3 ∧
    usageChunk ∈ emittedOf (stream_lyrics R0 db1 1 "Modern" "Free Verse"
      none) ∧
    ((dbGet (applyOp db1 (.streamOp R0 1 "Modern" "Free Verse" none)) 1).map
      Song.total_tokens) = some 0 := by
  decide

/-- C5 (amended): for every API operation other than the explicit update
(`PUT /songs/{id}` may set `total_tokens` to an arbitrary client value),
the `total_tokens` of every song that exists before and after the
operation never decreases.  The streaming handler only ever adds a
parsed amount when it is strictly positive; the pipeline's own usage
marker is never parsed (its chunk starts with two newlines, not with
`"__USAGE__:"`), so a completed stream of the real pipeline adds nothing
— see the counterexample. -/
theorem C5_amended (op : Op) (hop : isUpdateOp op = false) (db : Db)
    (song_id : Nat) (s s2 : Song) (h1 : dbGet db song_id = some s)
    (h2 : dbGet (applyOp db op) song_id = some s2) :
    s.total_tokens ≤ s2.total_tokens := by
  cases op with
  | createOp c now =>
    simp only [applyOp, create_song] at h2
    rw [dbGet_append_left _ h1] at h2
    cases h2
    exact le_refl _
  | updateOp i u => simp [isUpdateOp] at hop
  | generateVibeOp r i p =>
    simp only [applyOp] at h2
    rcases generate_vibe_db r db i p with h | ⟨s0, hg, h⟩
    · rw [h, h1] at h2
      cases h2
      exact le_refl _
    · rw [h] at h2
      have htid : ({ s0 with vibe_cloud := some (get_vibe_cloud_val r p), content := some (cmSet (s0.content.getD []) "seed_prompt" p) } : Song).id = s0.id := rfl
      by_cases hid : s0.id = song_id
      · have hsome : (dbGet db ({ s0 with vibe_cloud := some (get_vibe_cloud_val r p), content := some (cmSet (s0.content.getD []) "seed_prompt" p) } : Song).id).isSome = true := by
          rw [htid, hid, h1]; rfl
        have hself := dbGet_dbSet_self db _ hsome
        rw [htid] at hself
        rw [← hid] at h2
        rw [hself] at h2
        cases h2
        have hiseq : i = song_id := by rw [← dbGet_id hg, hid]
        rw [hiseq, h1] at hg
        cases hg
        exact le_refl _
      · have htne : ({ s0 with vibe_cloud := some (get_vibe_cloud_val r p), content := some (cmSet (s0.content.getD []) "seed_prompt" p) } : Song).id ≠ song_id := by
          rw [htid]; exact hid
        rw [dbGet_dbSet_ne db _ song_id htne, h1] at h2
        cases h2
        exact le_refl _
  | streamOp r i st rh sd =>
    simp only [applyOp] at h2
    rcases ho : stream_lyrics r db i st rh sd with _ | evs | ⟨evs, db2⟩
    · rw [ho] at h2
      rw [h1] at h2
      cases h2
      exact le_refl _
    · rw [ho] at h2
      rw [h1] at h2
      cases h2
      exact le_refl _
    · rw [ho] at h2
      obtain ⟨song, sc, hg, hdb2, hid, _, htot⟩ :=
        stream_completed_inv r db i st rh sd evs db2 ho
      rw [hdb2] at h2
      by_cases hsid : sc.id = song_id
      · have hsome : (dbGet db sc.id).isSome = true := by
          rw [hsid, h1]; rfl
        have hself := dbGet_dbSet_self db sc hsome
        rw [hsid] at hself
        rw [hself] at h2
        cases h2
        have hiseq : i = song_id := by rw [← dbGet_id hg, ← hid, hsid]
        rw [hiseq, h1] at hg
        cases hg
        exact htot
      · rw [dbGet_dbSet_ne db _ song_id hsid, h1] at h2
        cases h2
        exact le_refl _

/-- Witness for C5 (amended): a generate-vibe call on a concrete song. -/
theorem C5_amended_witness :
    song1.total_tokens ≤
      ({ id := 1, title := "T", vibe_cloud := some ["X"],
         content := some [("seed_prompt", "p")] } : Song).total_tokens :=
  C5_amended (.generateVibeOp R0 1 "p") rfl db1 1 song1
    { id := 1, title := "T", vibe_cloud := some ["X"],
      content := some [("seed_prompt", "p")] }
    rfl (by decide)

theorem vibeLenOk_le {o : Option (List String)} {l : List String}
    (h : vibeLenOk o = true) (he : o = some l) : l.length ≤ 5 := by
  subst he
  exact of_decide_eq_true h

theorem invV_applyOp (db : Db) (op : Op) (hok : opOk op = true)
    (hInv : InvV db) : InvV (applyOp db op) := by
  cases op with
  | createOp c now =>
    intro s hs l hl
    simp only [applyOp, create_song] at hs
    rcases List.mem_append.mp hs with h | h
    · exact hInv s h l hl
    · have hse : s = { id := nextId db, title := c.title, vibe_cloud := c.vibe_cloud, content := c.content, thought_sig := c.thought_sig, total_tokens := c.total_tokens, created_at := now, updated_at := now } := by simpa using h
      subst hse
      exact vibeLenOk_le hok hl
  | updateOp i u =>
    intro s hs l hl
    simp only [applyOp] at hs
    unfold update_song at hs
    rcases hg : dbGet db i with _ | s0
    · rw [hg] at hs
      exact hInv s hs l hl
    · rw [hg] at hs
      rcases mem_dbSet hs with he | he
      · subst he
        have hl2 : u.vibe_cloud.getD s0.vibe_cloud = some l := hl
        rcases hu : u.vibe_cloud with _ | v
        · rw [hu] at hl2
          exact hInv s0 (mem_of_dbGet hg) l (by simpa using hl2)
        · rw [hu] at hl2
          have hok2 : vibeLenOk v = true := by
            have h3 : opOk (.updateOp i u) = true := hok
            simp only [opOk] at h3
            rw [hu] at h3
            exact h3
          exact vibeLenOk_le hok2 (by simpa using hl2)
      · exact hInv s he l hl
  | generateVibeOp r i p =>
    intro s hs l hl
    simp only [applyOp] at hs
    rcases generate_vibe_db r db i p with h | ⟨s0, hg, h⟩
    · rw [h] at hs
      exact hInv s hs l hl
    · rw [h] at hs
      rcases mem_dbSet hs with he | he
      · subst he
        have hl2 : some (get_vibe_cloud_val r p) = some l := hl
        cases hl2
        exact get_vibe_cloud_val_le5 r p
      · exact hInv s he l hl
  | streamOp r i st rh sd =>
    intro s hs l hl
    simp only [applyOp] at hs
    rcases ho : stream_lyrics r db i st rh sd with _ | evs | ⟨evs, db2⟩
    · rw [ho] at hs
      exact hInv s hs l hl
    · rw [ho] at hs
      exact hInv s hs l hl
    · rw [ho] at hs
      obtain ⟨song, sc, hg, hdb2, _, hvibe, _⟩ :=
        stream_completed_inv r db i st rh sd evs db2 ho
      rw [hdb2] at hs
      rcases mem_dbSet hs with he | he
      · subst he
        rcases hvibe with hv | hv
        · rw [hv] at hl
          exact hInv song (mem_of_dbGet hg) l hl
        · rw [hv] at hl
          cases hl
          exact get_vibe_cloud_val_le5 _ _
      · exact hInv s he l hl

theorem invV_foldl (ops : List Op) :
    ∀ db, (∀ op ∈ ops, opOk op = true) → InvV db →
      InvV (ops.foldl applyOp db) := by
  induction ops with
  | nil =>
    intro db _ h
    exact h
  | cons op t ih =>
    intro db hops h
    rw [List.foldl_cons]
    exact ih _ (fun o ho => hops o (List.mem_cons_of_mem _ ho))
      (invV_applyOp db op (hops op (List.mem_cons_self _ _)) h)

/-- Counterexample to C6 as stated: the create endpoint validates its body
into the row unfiltered, so one `POST /songs/` carrying six anchors
produces a reachable state whose `vibe_cloud` has 6 > 5 entries. -/
theorem C6_counterexample :
    (dbGet (reach [.createOp { title := "T", vibe_cloud := some ["a", "b", "c", "d", "e", "f"] } 0]) 1).map
      (fun s => s.vibe_cloud.map List.length) = some (some 6) := by
  decide

/-- C6 (amended): for every sequence of API operations in which the
client-supplied bodies of create/update never themselves carry a vibe
cloud of more than 5 entries, every reachable state satisfies the bound:
any present `vibe_cloud` has at most 5 entries.  (The AI-driven
operations — generate_vibe and streaming — always truncate to 5, so they
need no side condition; only the pass-through create/update endpoints
do.) -/
theorem C6_amended (ops : List Op) (hops : ∀ op ∈ ops, opOk op = true) :
    InvV (reach ops) :=
  invV_foldl ops [] hops (fun s hs => absurd hs (List.not_mem_nil s))

/-- Witness for C6 (amended) on a one-operation sequence. -/
theorem C6_amended_witness :
    InvV (reach [Op.createOp { title := "T" } 0]) :=
  C6_amended [Op.createOp { title := "T" } 0]
    (by
      intro op hop
      have h2 : op = Op.createOp { title := "T" } 0 := by simpa using hop
      subst h2
      rfl)

/-- C9: a successful `POST /songs/{id}/generate_vibe` on an existing song
changes only `vibe_cloud` and the `"seed_prompt"` key of `content`: the
updated row is committed and fetchable, `vibe_cloud` is replaced by the
scouted anchors, `content["seed_prompt"]` becomes the request prompt,
every other content key is unchanged, the fields id, title, thought_sig,
total_tokens and created_at are unchanged, and every other row of the
database is untouched. -/
theorem C9_generate_vibe_frame (r : Remote) (db : Db) (song_id : Nat)
    (prompt : String) (song : Song) (hs : dbGet db song_id = some song)
    (hc : r.hasClient = true) :
    ∃ s2 : Song, ∃ cs : List Call,
      generate_vibe r db song_id prompt = (.ok s2, dbSet db s2, cs) ∧
      dbGet (dbSet db s2) song_id = some s2 ∧
      s2.vibe_cloud = some (get_vibe_cloud_val r prompt) ∧
      cmGet (s2.content.getD []) "seed_prompt" = some prompt ∧
      (∀ k, k ≠ "seed_prompt" →
        cmGet (s2.content.getD []) k = cmGet (song.content.getD []) k) ∧
      s2.id = song.id ∧ s2.title = song.title ∧
      s2.thought_sig = song.thought_sig ∧
      s2.total_tokens = song.total_tokens ∧
      s2.created_at = song.created_at ∧
      (∀ t ∈ db, t.id ≠ song_id → t ∈ dbSet db s2) := by
  unfold generate_vibe
  rw [hs]
  rcases hr : get_vibe_cloud r prompt with ⟨exc, cs⟩
  cases exc with
  | error e =>
    exfalso
    unfold get_vibe_cloud at hr
    rw [if_pos hc] at hr
    simp at hr
  | ok anchors =>
    have hv := get_vibe_cloud_ok_val r prompt anchors cs hr
    subst hv
    refine ⟨{ song with vibe_cloud := some (get_vibe_cloud_val r prompt), content := some (cmSet (song.content.getD []) "seed_prompt" prompt) },
      cs, rfl, ?_, rfl, cmGet_cmSet_self _ _ _, ?_, rfl, rfl, rfl, rfl, rfl,
      ?_⟩
    · have hid2 : ({ song with vibe_cloud := some (get_vibe_cloud_val r prompt), content := some (cmSet (song.content.getD []) "seed_prompt" prompt) } : Song).id = song_id := by
        show song.id = song_id
        exact dbGet_id hs
      rw [← hid2]
      apply dbGet_dbSet_self
      rw [hid2, hs]
      rfl
    · intro k hk
      exact cmGet_cmSet_ne _ _ _ k hk
    · intro t ht htne
      have hne2 : (t.id == ({ song with vibe_cloud := some (get_vibe_cloud_val r prompt), content := some (cmSet (song.content.getD []) "seed_prompt" prompt) } : Song).id) = false := by
        simp only [beq_eq_false_iff_ne]
        show t.id ≠ song.id
        rw [dbGet_id hs]
        exact htne
      exact List.mem_map.mpr ⟨t, ht, by simp [hne2]⟩

/-- Witness for C9 at a concrete remote and database. -/
theorem C9_generate_vibe_frame_witness :
    ∃ s2 : Song, ∃ cs : List Call,
      generate_vibe R0 db1 1 "p" = (.ok s2, dbSet db1 s2, cs) ∧
      dbGet (dbSet db1 s2) 1 = some s2 ∧
      s2.vibe_cloud = some (get_vibe_cloud_val R0 "p") ∧
      cmGet (s2.content.getD []) "seed_prompt" = some "p" ∧
      (∀ k, k ≠ "seed_prompt" →
        cmGet (s2.content.getD []) k = cmGet (song1.content.getD []) k) ∧
      s2.id = song1.id ∧ s2.title = song1.title ∧
      s2.thought_sig = song1.thought_sig ∧
      s2.total_tokens = song1.total_tokens ∧
      s2.created_at = song1.created_at ∧
      (∀ t ∈ db1, t.id ≠ 1 → t ∈ dbSet db1 s2) :=
  C9_generate_vibe_frame R0 db1 1 "p" song1 rfl rfl

end VibeFlow
